import Mathlib

/-!
Verification development for the gesture-control repository.

The embedding follows the source files:
  * `gesture_recognition/gesture_classifier.py` (class `GestureClassifier`),
  * `gesture_recognition/action_mapper.py` (class `ActionMapper`),
  * `main_control_app.py` (the gesture-stabilizer logic in `MainApplication.run`,
    lines 154-161, with `GESTURE_CONFIRM_FRAMES = 3`).

Landmark coordinates are modelled as exact rationals.  The Python code computes
Euclidean distances with `math.sqrt`; every use of such a distance in the code
is a comparison (either `dist > 0.01`, or `value > threshold * (scale/0.15)`
where `scale` is itself a distance, or `dist < threshold * (scale/0.15)`).
We therefore carry the *square* of each distance as a rational and decide each
comparison by the equivalent squared comparison; the lemmas `gtScaled_eq_true_iff`
and `ltDistScaled_eq_true_iff` prove, against `Real.sqrt`, that the decidable
comparators mean exactly the real-number comparisons the source performs.
-/

/-- A single hand landmark: normalized (x, y, z) coordinates
(`_get_landmark_list` produces the array of these 3-tuples). -/
structure Pt where
  x : ℚ
  y : ℚ
  z : ℚ
deriving DecidableEq

/-- A 21-point landmark set, indexed by the MediaPipe hand-landmark indices:
0 WRIST; 1-4 thumb CMC/MCP/IP/TIP; 5-8 index MCP/PIP/DIP/TIP;
9-12 middle; 13-16 ring; 17-20 pinky. -/
def Landmarks : Type := Fin 21 → Pt

/-- Build a landmark set from a list of 21 points (missing entries default to the
origin; all concrete landmark sets below supply exactly 21 points). -/
def mkHand (pts : List Pt) : Landmarks := fun i => pts.getD i.val ⟨0, 0, 0⟩

/-- Squared Euclidean distance: the square of `_calculate_distance(p1, p2)`
(`math.sqrt(np.sum((p1_arr - p2_arr)**2))`). -/
def distSq (p q : Pt) : ℚ := (p.x - q.x)^2 + (p.y - q.y)^2 + (p.z - q.z)^2

/-- Decides `c * sqrt s2 < d` for rationals with `0 ≤ c` and `0 ≤ s2`:
used for every source comparison of the shape
`value > threshold * (hand_scale_ref / 0.15)` (with `c = threshold / 0.15`,
`s2` the square of `hand_scale_ref`). -/
def gtScaled (d c s2 : ℚ) : Bool := decide (0 < d ∧ c^2 * s2 < d^2)

/-- Decides `sqrt dsq < c * sqrt s2` for rationals with `0 ≤ dsq`, `0 ≤ c`,
`0 ≤ s2`: used for the source's thumb-tuck checks
`_calculate_distance(...) < threshold * (hand_scale_ref / 0.15)`. -/
def ltDistScaled (dsq c s2 : ℚ) : Bool := decide (dsq < c^2 * s2)

lemma distSq_nonneg (p q : Pt) : 0 ≤ distSq p q := by
  unfold distSq; positivity

/-- Soundness of `gtScaled` against real arithmetic. -/
lemma gtScaled_eq_true_iff (d c s2 : ℚ) (hc : 0 ≤ c) (_hs : 0 ≤ s2) :
    gtScaled d c s2 = true ↔ (c : ℝ) * Real.sqrt (s2 : ℚ) < (d : ℝ) := by
  unfold gtScaled
  rw [decide_eq_true_iff]
  have hc' : (0 : ℝ) ≤ (c : ℚ) := by exact_mod_cast hc
  have key : (c : ℝ) * Real.sqrt (s2 : ℚ) = Real.sqrt ((c : ℚ)^2 * (s2 : ℚ)) := by
    rw [Real.sqrt_mul (by positivity), Real.sqrt_sq hc']
  rw [key]
  constructor
  · rintro ⟨hd, h2⟩
    have hd' : (0 : ℝ) < (d : ℚ) := by exact_mod_cast hd
    exact (Real.sqrt_lt' hd').mpr (by exact_mod_cast h2)
  · intro h
    have hd' : (0 : ℝ) < (d : ℚ) := lt_of_le_of_lt (Real.sqrt_nonneg _) h
    refine ⟨by exact_mod_cast hd', ?_⟩
    have := (Real.sqrt_lt' hd').mp h
    exact_mod_cast this

/-- Soundness of `ltDistScaled` against real arithmetic. -/
lemma ltDistScaled_eq_true_iff (dsq c s2 : ℚ) (hd : 0 ≤ dsq) (hc : 0 ≤ c)
    (_hs : 0 ≤ s2) :
    ltDistScaled dsq c s2 = true ↔
      Real.sqrt (dsq : ℚ) < (c : ℝ) * Real.sqrt (s2 : ℚ) := by
  unfold ltDistScaled
  rw [decide_eq_true_iff]
  have hc' : (0 : ℝ) ≤ (c : ℚ) := by exact_mod_cast hc
  have hd' : (0 : ℝ) ≤ (dsq : ℚ) := by exact_mod_cast hd
  have key : (c : ℝ) * Real.sqrt (s2 : ℚ) = Real.sqrt ((c : ℚ)^2 * (s2 : ℚ)) := by
    rw [Real.sqrt_mul (by positivity), Real.sqrt_sq hc']
  rw [key, Real.sqrt_lt_sqrt_iff hd']
  constructor
  · intro h; exact_mod_cast h
  · intro h; exact_mod_cast h

/-- Squared distance between wrist (landmark 0) and middle-finger MCP
(landmark 9), the raw quantity of `_get_wrist_to_middle_mcp_dist`. -/
def wristToMiddleMcpDistSq (lm : Landmarks) : ℚ := distSq (lm 0) (lm 9)

/-- Square of the hand scale reference.  Embeds `_get_wrist_to_middle_mcp_dist`
(gesture_classifier.py lines 51-55): `return dist if dist > 0.01 else 0.15`,
carried as its square: since `dist = sqrt(distSq) ≥ 0`, the test `dist > 0.01`
is equivalent to `distSq > 0.01^2`, and the returned value's square is
`distSq` or `0.15^2` accordingly. -/
def scaleRefSq (lm : Landmarks) : ℚ :=
  if (1/100)^2 < wristToMiddleMcpDistSq lm then wristToMiddleMcpDistSq lm
  else (15/100)^2

lemma scaleRefSq_nonneg (lm : Landmarks) : 0 ≤ scaleRefSq lm := by
  unfold scaleRefSq
  split
  · exact distSq_nonneg _ _
  · norm_num

lemma scaleRefSq_pos (lm : Landmarks) : (1/100)^2 < scaleRefSq lm := by
  unfold scaleRefSq
  split
  · assumption
  · norm_num

/-! ### GestureClassifier constants (gesture_classifier.py `__init__`)

`FINGER_CURL_Y_MCP_THRESHOLD`, `THUMB_ACROSS_X_MARGIN` and
`THUMB_Y_ALIGN_MCP_FACTOR` are declared in the source but used only by the
commented-out FIST rule, so they are omitted here. -/

def FINGER_UP_Y_THRESHOLD_STRICT : ℚ := 2/100

def FINGER_UP_Y_THRESHOLD_LOOSE : ℚ := 0

def THUMB_X_OUTWARDS_MCP_THRESHOLD_RIGHT : ℚ := -2/100

def THUMB_X_OUTWARDS_MCP_THRESHOLD_LEFT : ℚ := 2/100

def THUMB_UP_Y_VS_MCP_THRESHOLD : ℚ := 3/100

def POINTING_OTHER_FINGERS_DOWN_Y_THRESHOLD : ℚ := 2/100

def THUMBS_UP_CURL_THRESHOLD : ℚ := 1/100

/-- `tip_ids = [THUMB_TIP, INDEX_FINGER_TIP, MIDDLE_FINGER_TIP, RING_FINGER_TIP, PINKY_TIP]`. -/
def tipId (i : Fin 5) : Fin 21 := [4, 8, 12, 16, 20].getD i.val 0

/-- `pip_ids = [THUMB_IP, INDEX_FINGER_PIP, MIDDLE_FINGER_PIP, RING_FINGER_PIP, PINKY_PIP]`. -/
def pipId (i : Fin 5) : Fin 21 := [3, 6, 10, 14, 18].getD i.val 0

/-- `mcp_ids = [THUMB_MCP, INDEX_FINGER_MCP, MIDDLE_FINGER_MCP, RING_FINGER_MCP, PINKY_MCP]`. -/
def mcpId (i : Fin 5) : Fin 21 := [2, 5, 9, 13, 17].getD i.val 0

/-- Thumb flag of `_count_fingers_up_robust` (lines 70-91):
`is_thumb_tip_above_mcp` is `tip.y < mcp.y - 0.03*(s/0.15)`, i.e.
`mcp.y - tip.y > (0.03/0.15)*s`; the X-condition is handedness-dependent
(`False` for any handedness other than "Right"/"Left"):
for "Right", `tip.x < mcp.x + (-0.02)*(s/0.15)`, i.e. `mcp.x - tip.x > (0.02/0.15)*s`;
for "Left", `tip.x > mcp.x + 0.02*(s/0.15)`, i.e. `tip.x - mcp.x > (0.02/0.15)*s`. -/
def thumbUp (lm : Landmarks) (handedness_str : String) (s2 : ℚ) : Bool :=
  gtScaled ((lm (mcpId 0)).y - (lm (tipId 0)).y)
      (THUMB_UP_Y_VS_MCP_THRESHOLD / (15/100)) s2
  && (if handedness_str = "Right" then
        gtScaled ((lm (mcpId 0)).x - (lm (tipId 0)).x)
          (-THUMB_X_OUTWARDS_MCP_THRESHOLD_RIGHT / (15/100)) s2
      else if handedness_str = "Left" then
        gtScaled ((lm (tipId 0)).x - (lm (mcpId 0)).x)
          (THUMB_X_OUTWARDS_MCP_THRESHOLD_LEFT / (15/100)) s2
      else false)

/-- Non-thumb finger flag, `_count_fingers_up_robust` loop body (lines 97-107):
`cond1_extended` is `tip.y < pip.y - 0.02*(s/0.15)`; `cond2_generally_up` is
`tip.y < mcp.y - 0*(s/0.15) and pip.y < mcp.y - 0*(s/0.15)`. -/
def fingerUp (lm : Landmarks) (s2 : ℚ) (i : Fin 5) : Bool :=
  gtScaled ((lm (pipId i)).y - (lm (tipId i)).y)
      (FINGER_UP_Y_THRESHOLD_STRICT / (15/100)) s2
  || (gtScaled ((lm (mcpId i)).y - (lm (tipId i)).y)
        (FINGER_UP_Y_THRESHOLD_LOOSE / (15/100)) s2
      && gtScaled ((lm (mcpId i)).y - (lm (pipId i)).y)
        (FINGER_UP_Y_THRESHOLD_LOOSE / (15/100)) s2)

/-- `fingers_up_status` as returned by `_count_fingers_up_robust`. -/
def fingersUpList (lm : Landmarks) (handedness_str : String) (s2 : ℚ) : List ℕ :=
  [if thumbUp lm handedness_str s2 then 1 else 0,
   if fingerUp lm s2 1 then 1 else 0,
   if fingerUp lm s2 2 then 1 else 0,
   if fingerUp lm s2 3 then 1 else 0,
   if fingerUp lm s2 4 then 1 else 0]

/-- One closed-finger check of the THUMBS UP branch (`classify` lines 137-140):
`tip.y > pip.y + 0.01*(s/0.15)`. -/
def thumbsUpCurl (lm : Landmarks) (s2 : ℚ) (i : Fin 5) : Bool :=
  gtScaled ((lm (tipId i)).y - (lm (pipId i)).y)
    (THUMBS_UP_CURL_THRESHOLD / (15/100)) s2

/-- `index_closed and middle_closed and ring_closed and pinky_closed`. -/
def thumbsUpCurlsOk (lm : Landmarks) (s2 : ℚ) : Bool :=
  thumbsUpCurl lm s2 1 && thumbsUpCurl lm s2 2
  && thumbsUpCurl lm s2 3 && thumbsUpCurl lm s2 4

/-- THUMBS UP branch of `classify` (lines 132-146), producing the key it leaves
in `gesture_key` ("UNKNOWN_GESTURE" when the branch does not fire). -/
def thumbStep (lm : Landmarks) (handedness_str : String) (s2 : ℚ)
    (fs : List ℕ) : String :=
  if fs.getD 0 0 = 1 ∧ (fs.drop 1).sum = 0 ∧ thumbsUpCurlsOk lm s2 = true then
    if handedness_str = "Right" then "THUMB_UP_RIGHT"
    else if handedness_str = "Left" then "THUMB_UP_LEFT"
    else "THUMB_UP"
  else "UNKNOWN_GESTURE"

/-- `is_spread` of the OPEN PALM branch (line 152):
`abs(index_tip.x - middle_tip.x) > 0.03*(s/0.15)` and likewise middle/ring. -/
def isSpread (lm : Landmarks) (s2 : ℚ) : Bool :=
  gtScaled |(lm (tipId 1)).x - (lm (tipId 2)).x| ((3/100) / (15/100)) s2
  && gtScaled |(lm (tipId 2)).x - (lm (tipId 3)).x| ((3/100) / (15/100)) s2

/-- OPEN PALM branch of `classify` (lines 148-153). -/
def palmStep (lm : Landmarks) (s2 : ℚ) (fs : List ℕ) (key : String) : String :=
  if key = "UNKNOWN_GESTURE" ∧ 4 ≤ fs.sum
      ∧ (fs.sum = 5 ∨ (4 ≤ fs.sum ∧ isSpread lm s2 = true)) then "OPEN_PALM"
  else key

/-- One `..._down` check of the POINT UP / PEACE branches (lines 189-191,
204-205): `tip.y > pip.y + 0.02*(s/0.15)`. -/
def fingerPointDown (lm : Landmarks) (s2 : ℚ) (i : Fin 5) : Bool :=
  gtScaled ((lm (tipId i)).y - (lm (pipId i)).y)
    (POINTING_OTHER_FINGERS_DOWN_Y_THRESHOLD / (15/100)) s2

/-- `thumb_tucked_for_point` (lines 192-195): defaults to `True`; when thumb and
index both registered up, requires `distance(thumb_tip, index_mcp) < 0.1*(s/0.15)`. -/
def pointThumbTucked (lm : Landmarks) (s2 : ℚ) (fs : List ℕ) : Bool :=
  if fs.getD 0 0 = 1 ∧ fs.getD 1 0 = 1 then
    ltDistScaled (distSq (lm (tipId 0)) (lm (mcpId 1))) ((1/10) / (15/100)) s2
  else true

/-- POINT UP branch of `classify` (lines 183-196). -/
def pointStep (lm : Landmarks) (s2 : ℚ) (fs : List ℕ) (key : String) : String :=
  if key = "UNKNOWN_GESTURE"
      ∧ (fs = [0,1,0,0,0]
         ∨ (fs.getD 0 0 = 1 ∧ fs.getD 1 0 = 1 ∧ (fs.drop 2).sum = 0))
      ∧ fingerPointDown lm s2 2 = true ∧ fingerPointDown lm s2 3 = true
      ∧ fingerPointDown lm s2 4 = true ∧ pointThumbTucked lm s2 fs = true then
    "POINT_UP"
  else key

/-- `thumb_tucked_for_peace` (lines 206-209), tuck radius `0.12*(s/0.15)`. -/
def peaceThumbTucked (lm : Landmarks) (s2 : ℚ) (fs : List ℕ) : Bool :=
  if fs.getD 0 0 = 1 ∧ fs.getD 1 0 = 1 ∧ fs.getD 2 0 = 1 then
    ltDistScaled (distSq (lm (tipId 0)) (lm (mcpId 1))) ((12/100) / (15/100)) s2
  else true

/-- PEACE branch of `classify` (lines 198-210). -/
def peaceStep (lm : Landmarks) (s2 : ℚ) (fs : List ℕ) (key : String) : String :=
  if key = "UNKNOWN_GESTURE"
      ∧ (fs = [0,1,1,0,0]
         ∨ (fs.getD 0 0 = 1 ∧ fs.getD 1 0 = 1 ∧ fs.getD 2 0 = 1
            ∧ (fs.drop 3).sum = 0))
      ∧ fingerPointDown lm s2 3 = true ∧ fingerPointDown lm s2 4 = true
      ∧ peaceThumbTucked lm s2 fs = true then
    "PEACE"
  else key

/-- The rule chain of `classify` after `hand_scale_ref` and `fingers_status`
have been computed: THUMBS UP, then OPEN PALM, then POINT UP, then PEACE
(the FIST and THREE FINGERS UP rules are commented out in the source). -/
def classifyWith (lm : Landmarks) (handedness_str : String) (s2 : ℚ)
    (fs : List ℕ) : String :=
  peaceStep lm s2 fs (pointStep lm s2 fs (palmStep lm s2 fs
    (thumbStep lm handedness_str s2 fs)))

/-- `GestureClassifier.classify(hand_landmarks, handedness_str)` (lines 119-217):
`None` landmarks give "NO_HAND"; otherwise the ordered rule chain runs with
`hand_scale_ref` from `_get_wrist_to_middle_mcp_dist` and `fingers_status` from
`_count_fingers_up_robust`. -/
def classify (hand_landmarks : Option Landmarks) (handedness_str : String) : String :=
  match hand_landmarks with
  | none => "NO_HAND"
  | some lm =>
      classifyWith lm handedness_str (scaleRefSq lm)
        (fingersUpList lm handedness_str (scaleRefSq lm))

/-- A concrete right-hand thumbs-up pose (all z = 0, wrist-to-middle-MCP
distance 0.02). -/
def thumbsUpRightHand : Landmarks := mkHand
  [⟨1/2, 9/10, 0⟩,
   ⟨51/100, 91/100, 0⟩,
   ⟨52/100, 9/10, 0⟩,
   ⟨51/100, 89/100, 0⟩,
   ⟨1/2, 88/100, 0⟩,
   ⟨48/100, 9/10, 0⟩,
   ⟨48/100, 91/100, 0⟩,
   ⟨48/100, 915/1000, 0⟩,
   ⟨48/100, 92/100, 0⟩,
   ⟨1/2, 88/100, 0⟩,
   ⟨1/2, 9/10, 0⟩,
   ⟨1/2, 91/100, 0⟩,
   ⟨1/2, 92/100, 0⟩,
   ⟨53/100, 89/100, 0⟩,
   ⟨53/100, 91/100, 0⟩,
   ⟨53/100, 92/100, 0⟩,
   ⟨53/100, 93/100, 0⟩,
   ⟨55/100, 9/10, 0⟩,
   ⟨55/100, 915/1000, 0⟩,
   ⟨55/100, 92/100, 0⟩,
   ⟨55/100, 93/100, 0⟩]

attribute [local semireducible] Rat.add Rat.sub Rat.mul Rat.inv


/-! ### Gesture stabilizer (main_control_app.py, `MainApplication.run` lines 154-161) -/

/-- `GESTURE_CONFIRM_FRAMES = 3` (main_control_app.py line 39). -/
def GESTURE_CONFIRM_FRAMES : ℕ := 3

/-- The stabilizer's cross-frame state: `current_potential_gesture_key`,
`last_confirmed_gesture_key` and `gesture_stability_count`. -/
structure StabState where
  potential : String
  confirmed : String
  count : ℕ
deriving DecidableEq

/-- Initial stabilizer state set in `MainApplication.__init__` (lines 97-99):
both keys "NO_HAND", count 0. -/
def initStab : StabState := ⟨"NO_HAND", "NO_HAND", 0⟩

/-- Lines 154-155: `if current_gesture == self.current_potential_gesture_key:
self.gesture_stability_count += 1  else: self.current_potential_gesture_key =
current_gesture; self.gesture_stability_count = 1`. -/
def stabUpdate (st : StabState) (g : String) : StabState :=
  if g = st.potential then ⟨st.potential, st.confirmed, st.count + 1⟩
  else ⟨g, st.confirmed, 1⟩

/-- Lines 157-161: when `gesture_stability_count >= GESTURE_CONFIRM_FRAMES` and
`last_confirmed_gesture_key != current_potential_gesture_key`, the confirmed key
is updated and the confirmation (the new `last_confirmed_gesture_key`, which is
looked up in the action mapper and dispatched) is emitted. -/
def stabEmit (st : StabState) : StabState × Option String :=
  if GESTURE_CONFIRM_FRAMES ≤ st.count ∧ st.confirmed ≠ st.potential then
    (⟨st.potential, st.potential, st.count⟩, some st.potential)
  else (st, none)

/-- One frame of the stabilizer: the count/potential update followed by the
confirmation check. -/
def stabStep (st : StabState) (g : String) : StabState × Option String :=
  stabEmit (stabUpdate st g)

/-- Runs the stabilizer over a classification sequence, recording each
confirmation together with its 1-based frame number (`n` is the number of the
next frame to process). -/
def stabRunAux (st : StabState) (n : ℕ) : List String → List (ℕ × String)
  | [] => []
  | g :: gs =>
    match stabStep st g with
    | (st', some s) => (n, s) :: stabRunAux st' (n + 1) gs
    | (st', none) => stabRunAux st' (n + 1) gs

/-- The (frame number, confirmed symbol) pairs emitted while feeding a
classification sequence from the initial state. -/
def emissions (gs : List String) : List (ℕ × String) := stabRunAux initStab 1 gs

/-! ### ActionMapper (gesture_recognition/action_mapper.py) -/

/-- The condition of the configuration source seen by `ActionMapper._load_config`:
the file can be missing (`FileNotFoundError`), unparseable
(`json.JSONDecodeError`), or a parsed key-value mapping (a JSON object, modelled
as an association list with `dict.get`-style first-match lookup). -/
inductive ConfigSource where
  | missing : ConfigSource
  | malformed : ConfigSource
  | valid : List (String × String) → ConfigSource
deriving DecidableEq

/-- `ActionMapper._load_config` (lines 19-31): returns the parsed mapping, or
`{"FALLBACK_ACTION": "STOP"}` on `FileNotFoundError` or `json.JSONDecodeError`
(construction never raises). -/
def ActionMapper_load_config : ConfigSource → List (String × String)
  | ConfigSource.missing => [("FALLBACK_ACTION", "STOP")]
  | ConfigSource.malformed => [("FALLBACK_ACTION", "STOP")]
  | ConfigSource.valid actions => actions

/-- `ActionMapper.get_command` (lines 34-38):
`self.gesture_actions.get(gesture_key, "UNKNOWN_COMMAND")`. -/
def ActionMapper_get_command (gesture_actions : List (String × String))
    (gesture_key : String) : String :=
  (gesture_actions.lookup gesture_key).getD "UNKNOWN_COMMAND"

/-! ### Input transformations used by the algebraic claims -/

/-- Mirror a landmark set in x (`x ↦ 1 - x`, y and z unchanged), simulating the
opposite hand in the mirrored camera view. -/
def mirrorX (lm : Landmarks) : Landmarks :=
  fun i => ⟨1 - (lm i).x, (lm i).y, (lm i).z⟩

/-- Flip a handedness label between "Left" and "Right" (anything else is kept). -/
def flipHand (handedness_str : String) : String :=
  if handedness_str = "Right" then "Left"
  else if handedness_str = "Left" then "Right"
  else handedness_str

/-- Uniform scaling of the landmark (x, y) coordinates about the wrist by a
factor k, z components left as they are. -/
def scaleXY (k : ℚ) (lm : Landmarks) : Landmarks :=
  fun i => ⟨(lm 0).x + k * ((lm i).x - (lm 0).x),
            (lm 0).y + k * ((lm i).y - (lm 0).y),
            (lm i).z⟩

/-- A landmark set whose wrist-to-middle-MCP distance is exactly 0.05: all
points at the origin except the middle-finger MCP. -/
def smallScaleHand : Landmarks := mkHand
  [⟨0, 0, 0⟩, ⟨0, 0, 0⟩, ⟨0, 0, 0⟩, ⟨0, 0, 0⟩, ⟨0, 0, 0⟩,
   ⟨0, 0, 0⟩, ⟨0, 0, 0⟩, ⟨0, 0, 0⟩, ⟨0, 0, 0⟩,
   ⟨1/20, 0, 0⟩,
   ⟨0, 0, 0⟩, ⟨0, 0, 0⟩, ⟨0, 0, 0⟩, ⟨0, 0, 0⟩, ⟨0, 0, 0⟩,
   ⟨0, 0, 0⟩, ⟨0, 0, 0⟩, ⟨0, 0, 0⟩, ⟨0, 0, 0⟩, ⟨0, 0, 0⟩, ⟨0, 0, 0⟩]


/-! ### Stabilizer lemmas -/

lemma stabStep_new (st : StabState) (g : String) (hg : g ≠ st.potential) :
    stabStep st g = (⟨g, st.confirmed, 1⟩, none) := by
  unfold stabStep stabUpdate stabEmit GESTURE_CONFIRM_FRAMES
  rw [if_neg hg, if_neg]
  simp

lemma stabStep_same_low (st : StabState) (g : String) (hg : g = st.potential)
    (hc : st.count + 1 < GESTURE_CONFIRM_FRAMES) :
    stabStep st g = (⟨st.potential, st.confirmed, st.count + 1⟩, none) := by
  unfold stabStep stabUpdate stabEmit
  rw [if_pos hg, if_neg]
  intro h
  exact absurd h.1 (by simpa using hc)

lemma stabStep_same_confirmed (st : StabState) (g : String) (hg : g = st.potential)
    (hconf : st.confirmed = st.potential) :
    stabStep st g = (⟨st.potential, st.confirmed, st.count + 1⟩, none) := by
  unfold stabStep stabUpdate stabEmit
  rw [if_pos hg, if_neg]
  intro h
  exact h.2 hconf

lemma stabStep_same_emit (st : StabState) (g : String) (hg : g = st.potential)
    (hc : GESTURE_CONFIRM_FRAMES ≤ st.count + 1) (hconf : st.confirmed ≠ st.potential) :
    stabStep st g = (⟨st.potential, st.potential, st.count + 1⟩, some st.potential) := by
  unfold stabStep stabUpdate stabEmit
  rw [if_pos hg, if_pos ⟨hc, hconf⟩]

lemma stabRunAux_cons_none (st st' : StabState) (n : ℕ) (g : String)
    (gs : List String) (h : stabStep st g = (st', none)) :
    stabRunAux st n (g :: gs) = stabRunAux st' (n + 1) gs := by
  conv_lhs => rw [stabRunAux]
  rw [h]

lemma stabRunAux_cons_some (st st' : StabState) (n : ℕ) (g s : String)
    (gs : List String) (h : stabStep st g = (st', some s)) :
    stabRunAux st n (g :: gs) = (n, s) :: stabRunAux st' (n + 1) gs := by
  conv_lhs => rw [stabRunAux]
  rw [h]

/-- Claim C1 (counterexample): with concrete distinct non-NO_HAND symbols
A = "OPEN_PALM" and B = "PEACE", the sequence [A, A, B, B, B, B] produces its
single confirmation on the 5th frame, not on the 4th frame as claimed. -/
theorem stabilizer_AABBBB_counterexample :
    emissions ["OPEN_PALM", "OPEN_PALM", "PEACE", "PEACE", "PEACE", "PEACE"]
      = [(5, "PEACE")]
    ∧ (4, "PEACE") ∉
      emissions ["OPEN_PALM", "OPEN_PALM", "PEACE", "PEACE", "PEACE", "PEACE"] := by
  constructor
  · decide
  · decide

/-- Claim C1 (amended): for the stabilizer with confirmation threshold 3,
starting from its initial state, feeding [A, A, B, B, B, B] with A, B distinct
and both different from NO_HAND emits exactly one confirmation over the whole
sequence, carrying B, on the 5th frame (the 3rd consecutive B), and none for A. -/
theorem stabilizer_AABBBB (A B : String) (hAB : A ≠ B) (hA : A ≠ "NO_HAND")
    (hB : B ≠ "NO_HAND") :
    emissions [A, A, B, B, B, B] = [(5, B)] := by
  have h1 : stabStep initStab A = (⟨A, "NO_HAND", 1⟩, none) :=
    stabStep_new initStab A hA
  have h2 : stabStep ⟨A, "NO_HAND", 1⟩ A = (⟨A, "NO_HAND", 2⟩, none) :=
    stabStep_same_low _ A rfl (by norm_num [GESTURE_CONFIRM_FRAMES])
  have h3 : stabStep ⟨A, "NO_HAND", 2⟩ B = (⟨B, "NO_HAND", 1⟩, none) :=
    stabStep_new _ B (Ne.symm hAB)
  have h4 : stabStep ⟨B, "NO_HAND", 1⟩ B = (⟨B, "NO_HAND", 2⟩, none) :=
    stabStep_same_low _ B rfl (by norm_num [GESTURE_CONFIRM_FRAMES])
  have h5 : stabStep ⟨B, "NO_HAND", 2⟩ B = (⟨B, B, 3⟩, some B) :=
    stabStep_same_emit _ B rfl (by norm_num [GESTURE_CONFIRM_FRAMES]) (Ne.symm hB)
  have h6 : stabStep ⟨B, B, 3⟩ B = (⟨B, B, 4⟩, none) :=
    stabStep_same_confirmed _ B rfl rfl
  unfold emissions
  rw [stabRunAux_cons_none _ _ _ _ _ h1, stabRunAux_cons_none _ _ _ _ _ h2,
    stabRunAux_cons_none _ _ _ _ _ h3, stabRunAux_cons_none _ _ _ _ _ h4,
    stabRunAux_cons_some _ _ _ _ _ _ h5, stabRunAux_cons_none _ _ _ _ _ h6]
  rfl

/-- Witness for the amended claim C1 at A = "POINT_UP", B = "OPEN_PALM". -/
theorem stabilizer_AABBBB_witness :
    emissions ["POINT_UP", "POINT_UP", "OPEN_PALM", "OPEN_PALM", "OPEN_PALM",
      "OPEN_PALM"] = [(5, "OPEN_PALM")] :=
  stabilizer_AABBBB "POINT_UP" "OPEN_PALM" (by decide) (by decide) (by decide)

/-- Claim C9: a confirmation is emitted only when the updated run length has
reached the threshold and the newly confirmed symbol differs from the
previously confirmed one; and feeding [A, A, A, A] (A not NO_HAND) from the
initial state emits exactly one confirmation, for A, on the 3rd frame and no
further confirmation on the 4th. -/
theorem stabilizer_emission_conditions_and_AAAA :
    (∀ (st : StabState) (g s : String), (stabStep st g).2 = some s →
      GESTURE_CONFIRM_FRAMES ≤ (stabStep st g).1.count
      ∧ st.confirmed ≠ s ∧ (stabStep st g).1.potential = s)
    ∧ (∀ A : String, A ≠ "NO_HAND" → emissions [A, A, A, A] = [(3, A)]) := by
  constructor
  · intro st g s h
    unfold stabStep stabEmit at h ⊢
    by_cases hc : GESTURE_CONFIRM_FRAMES ≤ (stabUpdate st g).count
        ∧ (stabUpdate st g).confirmed ≠ (stabUpdate st g).potential
    · rw [if_pos hc] at h ⊢
      simp only [Option.some.injEq] at h
      subst h
      refine ⟨hc.1, ?_, rfl⟩
      have : (stabUpdate st g).confirmed = st.confirmed := by
        unfold stabUpdate
        split <;> rfl
      rw [← this]
      exact hc.2
    · rw [if_neg hc] at h
      exact absurd h (by simp)
  · intro A hA
    have h1 : stabStep initStab A = (⟨A, "NO_HAND", 1⟩, none) :=
      stabStep_new initStab A hA
    have h2 : stabStep ⟨A, "NO_HAND", 1⟩ A = (⟨A, "NO_HAND", 2⟩, none) :=
      stabStep_same_low _ A rfl (by norm_num [GESTURE_CONFIRM_FRAMES])
    have h3 : stabStep ⟨A, "NO_HAND", 2⟩ A = (⟨A, A, 3⟩, some A) :=
      stabStep_same_emit _ A rfl (by norm_num [GESTURE_CONFIRM_FRAMES]) (Ne.symm hA)
    have h4 : stabStep ⟨A, A, 3⟩ A = (⟨A, A, 4⟩, none) :=
      stabStep_same_confirmed _ A rfl rfl
    unfold emissions
    rw [stabRunAux_cons_none _ _ _ _ _ h1, stabRunAux_cons_none _ _ _ _ _ h2,
      stabRunAux_cons_some _ _ _ _ _ _ h3, stabRunAux_cons_none _ _ _ _ _ h4]
    rfl

/-- Witness for claim C9: the emission conditions hold at a concrete emitting
step, and the [A, A, A, A] property holds at A = "PEACE". -/
theorem stabilizer_emission_conditions_and_AAAA_witness :
    (GESTURE_CONFIRM_FRAMES ≤ (stabStep ⟨"OPEN_PALM", "NO_HAND", 2⟩ "OPEN_PALM").1.count
      ∧ (StabState.mk "OPEN_PALM" "NO_HAND" 2).confirmed ≠ "OPEN_PALM"
      ∧ (stabStep ⟨"OPEN_PALM", "NO_HAND", 2⟩ "OPEN_PALM").1.potential = "OPEN_PALM")
    ∧ emissions ["PEACE", "PEACE", "PEACE", "PEACE"] = [(3, "PEACE")] :=
  ⟨stabilizer_emission_conditions_and_AAAA.1 ⟨"OPEN_PALM", "NO_HAND", 2⟩
      "OPEN_PALM" "OPEN_PALM" (by decide),
   stabilizer_emission_conditions_and_AAAA.2 "PEACE" (by decide)⟩

/-- Claim C8: ActionMapper construction never fails: a missing or malformed
configuration source yields the single-entry mapping {FALLBACK_ACTION: "STOP"}
(so get_command("FALLBACK_ACTION") returns "STOP"), and for whatever mapping is
active, get_command returns the mapped value for present keys and
"UNKNOWN_COMMAND" for absent keys, never raising. -/
theorem actionMapper_fallback_and_lookup :
    ActionMapper_load_config ConfigSource.missing = [("FALLBACK_ACTION", "STOP")]
    ∧ ActionMapper_load_config ConfigSource.malformed = [("FALLBACK_ACTION", "STOP")]
    ∧ ActionMapper_get_command (ActionMapper_load_config ConfigSource.missing)
        "FALLBACK_ACTION" = "STOP"
    ∧ ActionMapper_get_command (ActionMapper_load_config ConfigSource.malformed)
        "FALLBACK_ACTION" = "STOP"
    ∧ (∀ (m : List (String × String)) (k v : String),
        m.lookup k = some v → ActionMapper_get_command m k = v)
    ∧ (∀ (m : List (String × String)) (k : String),
        m.lookup k = none → ActionMapper_get_command m k = "UNKNOWN_COMMAND") := by
  refine ⟨rfl, rfl, rfl, rfl, ?_, ?_⟩
  · intro m k v h
    unfold ActionMapper_get_command
    rw [h]
    rfl
  · intro m k h
    unfold ActionMapper_get_command
    rw [h]
    rfl

/-- Witness for claim C8: concrete present-key and absent-key lookups. -/
theorem actionMapper_fallback_and_lookup_witness :
    ActionMapper_get_command [("OPEN_PALM", "GO_FORWARD")] "OPEN_PALM"
      = "GO_FORWARD"
    ∧ ActionMapper_get_command [("OPEN_PALM", "GO_FORWARD")] "NOT_A_REAL_KEY"
      = "UNKNOWN_COMMAND" :=
  ⟨actionMapper_fallback_and_lookup.2.2.2.2.1 [("OPEN_PALM", "GO_FORWARD")]
      "OPEN_PALM" "GO_FORWARD" (by decide),
   actionMapper_fallback_and_lookup.2.2.2.2.2 [("OPEN_PALM", "GO_FORWARD")]
      "NOT_A_REAL_KEY" (by decide)⟩

/-! ### Claims C2 and C3: the hand scale reference -/

/-- Claim C2 (counterexample): a landmark set whose wrist-to-middle-MCP
distance is 0.05 gets a scale reference of 0.05, which is below the floor
value 0.15 claimed as a universal lower bound. -/
theorem scale_reference_floor_counterexample :
    Real.sqrt ((scaleRefSq smallScaleHand : ℚ) : ℝ) < 15/100 := by
  have h : scaleRefSq smallScaleHand = 1/400 := by decide
  rw [h]
  have h2 : (((1/400 : ℚ) : ℝ)) = (1/20 : ℝ)^2 := by norm_num
  rw [h2, Real.sqrt_sq (by norm_num)]
  norm_num

/-- Claim C2 (amended): the hand scale reference is always strictly greater
than 0.01 (the floor 0.15 is substituted only when the raw wrist-to-middle-MCP
distance is at most 0.01; raw distances above 0.01 are returned unchanged and
can be below 0.15). -/
theorem scale_reference_above_cutoff (lm : Landmarks) :
    (1/100 : ℝ) < Real.sqrt ((scaleRefSq lm : ℚ) : ℝ) := by
  rw [Real.lt_sqrt (by norm_num)]
  have h2 : ((((1:ℚ)/100)^2 : ℚ) : ℝ) < ((scaleRefSq lm : ℚ) : ℝ) := by
    exact_mod_cast scaleRefSq_pos lm
  have h3 : ((((1:ℚ)/100)^2 : ℚ) : ℝ) = (1/100 : ℝ)^2 := by push_cast; ring
  linarith

/-- Claim C3: for every 21-point landmark set, the scale reference is the floor
value 0.15 whenever the raw wrist-to-middle-MCP distance is at most 0.01, and
is the raw distance itself otherwise (the computation is a total function: it
never raises). -/
theorem scale_reference_value (lm : Landmarks) :
    (Real.sqrt ((wristToMiddleMcpDistSq lm : ℚ) : ℝ) ≤ 1/100
      ∧ Real.sqrt ((scaleRefSq lm : ℚ) : ℝ) = 15/100)
    ∨ ((1/100 : ℝ) < Real.sqrt ((wristToMiddleMcpDistSq lm : ℚ) : ℝ)
      ∧ Real.sqrt ((scaleRefSq lm : ℚ) : ℝ)
          = Real.sqrt ((wristToMiddleMcpDistSq lm : ℚ) : ℝ)) := by
  by_cases h : (1/100)^2 < wristToMiddleMcpDistSq lm
  · right
    constructor
    · rw [Real.lt_sqrt (by norm_num)]
      have h2 : ((((1:ℚ)/100)^2 : ℚ) : ℝ) < ((wristToMiddleMcpDistSq lm : ℚ) : ℝ) := by
        exact_mod_cast h
      have h3 : ((((1:ℚ)/100)^2 : ℚ) : ℝ) = (1/100 : ℝ)^2 := by push_cast; ring
      linarith
    · unfold scaleRefSq
      rw [if_pos h]
  · left
    push_neg at h
    constructor
    · rw [Real.sqrt_le_left (by norm_num)]
      have h2 : ((wristToMiddleMcpDistSq lm : ℚ) : ℝ) ≤ ((((1:ℚ)/100)^2 : ℚ) : ℝ) := by
        exact_mod_cast h
      have h3 : ((((1:ℚ)/100)^2 : ℚ) : ℝ) = (1/100 : ℝ)^2 := by push_cast; ring
      linarith
    · unfold scaleRefSq
      rw [if_neg (not_lt.mpr h)]
      have h2 : (((15/100 : ℚ)^2 : ℚ) : ℝ) = (15/100 : ℝ)^2 := by push_cast; ring
      rw [h2, Real.sqrt_sq (by norm_num)]

/-! ### Bridging and structural lemmas for the classifier -/

/-- `gtScaled` with a `threshold / 0.15` coefficient says exactly
`threshold * (scale / 0.15) < value` over the reals. -/
lemma gtScaled_thresh_iff (d t s2 : ℚ) (ht : 0 ≤ t) (hs : 0 ≤ s2) :
    gtScaled d (t / (15/100)) s2 = true ↔
      (t : ℝ) * (Real.sqrt (s2 : ℚ) / (15/100)) < (d : ℝ) := by
  rw [gtScaled_eq_true_iff _ _ _ (by positivity) hs]
  have h : ((t / (15/100) : ℚ) : ℝ) * Real.sqrt (s2 : ℚ)
      = (t : ℝ) * (Real.sqrt (s2 : ℚ) / (15/100)) := by
    push_cast
    ring
  rw [h]

lemma palmStep_ne_unknown (lm : Landmarks) (s2 : ℚ) (fs : List ℕ) (key : String)
    (h : key ≠ "UNKNOWN_GESTURE") : palmStep lm s2 fs key = key := by
  unfold palmStep
  rw [if_neg]
  intro hcon
  exact h hcon.1

lemma pointStep_ne_unknown (lm : Landmarks) (s2 : ℚ) (fs : List ℕ) (key : String)
    (h : key ≠ "UNKNOWN_GESTURE") : pointStep lm s2 fs key = key := by
  unfold pointStep
  rw [if_neg]
  intro hcon
  exact h hcon.1

lemma peaceStep_ne_unknown (lm : Landmarks) (s2 : ℚ) (fs : List ℕ) (key : String)
    (h : key ≠ "UNKNOWN_GESTURE") : peaceStep lm s2 fs key = key := by
  unfold peaceStep
  rw [if_neg]
  intro hcon
  exact h hcon.1

lemma palmStep_mem (lm : Landmarks) (s2 : ℚ) (fs : List ℕ) (key : String) :
    palmStep lm s2 fs key = "OPEN_PALM" ∨ palmStep lm s2 fs key = key := by
  unfold palmStep
  split
  · exact Or.inl rfl
  · exact Or.inr rfl

lemma pointStep_mem (lm : Landmarks) (s2 : ℚ) (fs : List ℕ) (key : String) :
    pointStep lm s2 fs key = "POINT_UP" ∨ pointStep lm s2 fs key = key := by
  unfold pointStep
  split
  · exact Or.inl rfl
  · exact Or.inr rfl

lemma peaceStep_mem (lm : Landmarks) (s2 : ℚ) (fs : List ℕ) (key : String) :
    peaceStep lm s2 fs key = "PEACE" ∨ peaceStep lm s2 fs key = key := by
  unfold peaceStep
  split
  · exact Or.inl rfl
  · exact Or.inr rfl

/-- The rule chain either keeps the key produced by the THUMBS UP branch or
replaces it with one of the later branches' keys. -/
lemma classifyWith_mem (lm : Landmarks) (hand : String) (s2 : ℚ) (fs : List ℕ) :
    classifyWith lm hand s2 fs = thumbStep lm hand s2 fs
    ∨ classifyWith lm hand s2 fs = "OPEN_PALM"
    ∨ classifyWith lm hand s2 fs = "POINT_UP"
    ∨ classifyWith lm hand s2 fs = "PEACE" := by
  unfold classifyWith
  rcases peaceStep_mem lm s2 fs
      (pointStep lm s2 fs (palmStep lm s2 fs (thumbStep lm hand s2 fs))) with h | h
  · rw [h]
    tauto
  · rw [h]
    rcases pointStep_mem lm s2 fs (palmStep lm s2 fs (thumbStep lm hand s2 fs)) with h2 | h2
    · rw [h2]
      tauto
    · rw [h2]
      rcases palmStep_mem lm s2 fs (thumbStep lm hand s2 fs) with h3 | h3
      · rw [h3]
        tauto
      · rw [h3]
        tauto

/-- A head flag of 1 in `fingers_up_status` means the thumb was counted up. -/
lemma fingersUpList_head_eq_one (lm : Landmarks) (hand : String) (s2 : ℚ)
    (h : (fingersUpList lm hand s2).getD 0 0 = 1) : thumbUp lm hand s2 = true := by
  unfold fingersUpList at h
  simp only [List.getD_cons_zero] at h
  cases hb : thumbUp lm hand s2
  · rw [hb] at h
    simp at h
  · rfl

/-- The thumb can only be counted up for handedness "Right" or "Left": for any
other label the X-outwards condition stays `False`. -/
lemma thumbUp_handedness (lm : Landmarks) (hand : String) (s2 : ℚ)
    (h : thumbUp lm hand s2 = true) : hand = "Right" ∨ hand = "Left" := by
  unfold thumbUp at h
  rw [Bool.and_eq_true] at h
  by_cases hr : hand = "Right"
  · exact Or.inl hr
  by_cases hl : hand = "Left"
  · exact Or.inr hl
  rw [if_neg hr, if_neg hl] at h
  exact absurd h.2 (by decide)

/-- The THUMBS UP branch only ever leaves "THUMB_UP_RIGHT", "THUMB_UP_LEFT" or
"UNKNOWN_GESTURE" when fed the fingers vector actually computed for the same
handedness: the unqualified "THUMB_UP" arm requires a thumb counted up under a
handedness that is neither "Right" nor "Left", which `thumbUp` rules out. -/
lemma thumbStep_mem_of_fingers (lm : Landmarks) (hand : String) (s2 : ℚ) :
    thumbStep lm hand s2 (fingersUpList lm hand s2) = "THUMB_UP_RIGHT"
    ∨ thumbStep lm hand s2 (fingersUpList lm hand s2) = "THUMB_UP_LEFT"
    ∨ thumbStep lm hand s2 (fingersUpList lm hand s2) = "UNKNOWN_GESTURE" := by
  unfold thumbStep
  split
  case isTrue hcond =>
    have hthumb := fingersUpList_head_eq_one lm hand s2 hcond.1
    rcases thumbUp_handedness lm hand s2 hthumb with hr | hl
    · subst hr
      left
      rfl
    · subst hl
      right
      left
      rfl
  case isFalse hcond =>
    right
    right
    rfl

/-! ### Claim C5: the non-thumb finger rule -/

/-- Claim C5: for every landmark set and each non-thumb finger independently,
the finger is flagged up iff EITHER its tip-y is above its pip-y by more than
the scaled strict threshold 0.02*(scale/0.15), OR both its tip-y and its pip-y
are above its mcp-y by more than the scaled loose threshold 0*(scale/0.15)
(smaller y = higher in the image). -/
theorem finger_up_iff (lm : Landmarks) (i : Fin 5) (_hi : i ≠ 0) :
    fingerUp lm (scaleRefSq lm) i = true ↔
      ((((lm (tipId i)).y : ℚ) : ℝ) < (((lm (pipId i)).y : ℚ) : ℝ)
          - (2/100) * (Real.sqrt ((scaleRefSq lm : ℚ) : ℝ) / (15/100)))
      ∨ (((((lm (tipId i)).y : ℚ) : ℝ) < (((lm (mcpId i)).y : ℚ) : ℝ)
            - 0 * (Real.sqrt ((scaleRefSq lm : ℚ) : ℝ) / (15/100)))
         ∧ ((((lm (pipId i)).y : ℚ) : ℝ) < (((lm (mcpId i)).y : ℚ) : ℝ)
            - 0 * (Real.sqrt ((scaleRefSq lm : ℚ) : ℝ) / (15/100)))) := by
  unfold fingerUp FINGER_UP_Y_THRESHOLD_STRICT FINGER_UP_Y_THRESHOLD_LOOSE
  rw [Bool.or_eq_true, Bool.and_eq_true]
  rw [gtScaled_thresh_iff _ _ _ (by norm_num) (scaleRefSq_nonneg lm),
    gtScaled_thresh_iff _ _ _ (by norm_num) (scaleRefSq_nonneg lm),
    gtScaled_thresh_iff _ _ _ (by norm_num) (scaleRefSq_nonneg lm)]
  push_cast
  constructor
  · rintro (h | ⟨h1, h2⟩)
    · left
      linarith
    · right
      exact ⟨by linarith, by linarith⟩
  · rintro (h | ⟨h1, h2⟩)
    · left
      linarith
    · right
      exact ⟨by linarith, by linarith⟩

/-- Witness for claim C5 at the concrete thumbs-up hand and the index finger. -/
theorem finger_up_iff_witness :
    ((1 : Fin 5) ≠ 0)
    ∧ (fingerUp thumbsUpRightHand (scaleRefSq thumbsUpRightHand) 1 = true ↔
      ((((thumbsUpRightHand (tipId 1)).y : ℚ) : ℝ)
          < (((thumbsUpRightHand (pipId 1)).y : ℚ) : ℝ)
          - (2/100) * (Real.sqrt ((scaleRefSq thumbsUpRightHand : ℚ) : ℝ) / (15/100)))
      ∨ (((((thumbsUpRightHand (tipId 1)).y : ℚ) : ℝ)
            < (((thumbsUpRightHand (mcpId 1)).y : ℚ) : ℝ)
            - 0 * (Real.sqrt ((scaleRefSq thumbsUpRightHand : ℚ) : ℝ) / (15/100)))
         ∧ ((((thumbsUpRightHand (pipId 1)).y : ℚ) : ℝ)
            < (((thumbsUpRightHand (mcpId 1)).y : ℚ) : ℝ)
            - 0 * (Real.sqrt ((scaleRefSq thumbsUpRightHand : ℚ) : ℝ) / (15/100))))) :=
  ⟨by decide, finger_up_iff thumbsUpRightHand 1 (by decide)⟩

/-! ### Claim C4: the thumb-gesture rule -/

/-- A fingertip is "curled" for the THUMBS UP verification: its tip-y is below
its pip-y by more than the scaled 0.01 margin (image coordinates: below =
larger y), stated over the reals. -/
def CurledReal (lm : Landmarks) (i : Fin 5) : Prop :=
  (((lm (pipId i)).y : ℚ) : ℝ)
    + (1/100) * (Real.sqrt ((scaleRefSq lm : ℚ) : ℝ) / (15/100))
    < (((lm (tipId i)).y : ℚ) : ℝ)

lemma thumbsUpCurl_iff (lm : Landmarks) (i : Fin 5) :
    thumbsUpCurl lm (scaleRefSq lm) i = true ↔ CurledReal lm i := by
  unfold thumbsUpCurl THUMBS_UP_CURL_THRESHOLD CurledReal
  rw [gtScaled_thresh_iff _ _ _ (by norm_num) (scaleRefSq_nonneg lm)]
  push_cast
  constructor
  · intro h
    linarith
  · intro h
    linarith

lemma thumbsUpCurlsOk_iff (lm : Landmarks) :
    thumbsUpCurlsOk lm (scaleRefSq lm) = true ↔
      ∀ i : Fin 5, i ≠ 0 → CurledReal lm i := by
  unfold thumbsUpCurlsOk
  simp only [Bool.and_eq_true]
  rw [thumbsUpCurl_iff, thumbsUpCurl_iff, thumbsUpCurl_iff, thumbsUpCurl_iff]
  constructor
  · rintro ⟨⟨⟨h1, h2⟩, h3⟩, h4⟩ i hi
    fin_cases i
    · exact absurd rfl hi
    · exact h1
    · exact h2
    · exact h3
    · exact h4
  · intro h
    exact ⟨⟨⟨h 1 (by decide), h 2 (by decide)⟩, h 3 (by decide)⟩, h 4 (by decide)⟩

lemma thumbStep_eq_of (lm : Landmarks) (hand : String) (s2 : ℚ) (fs : List ℕ)
    (h1 : fs.getD 0 0 = 1) (h2 : (fs.drop 1).sum = 0)
    (h3 : thumbsUpCurlsOk lm s2 = true) :
    thumbStep lm hand s2 fs =
      if hand = "Right" then "THUMB_UP_RIGHT"
      else if hand = "Left" then "THUMB_UP_LEFT" else "THUMB_UP" := by
  unfold thumbStep
  rw [if_pos ⟨h1, h2, h3⟩]

lemma thumbStep_no_curl (lm : Landmarks) (hand : String) (s2 : ℚ) (fs : List ℕ)
    (h3 : thumbsUpCurlsOk lm s2 = false) :
    thumbStep lm hand s2 fs = "UNKNOWN_GESTURE" := by
  unfold thumbStep
  rw [if_neg]
  rintro ⟨-, -, hc⟩
  rw [h3] at hc
  exact Bool.noConfusion hc

/-- Claim C4: when the finger-state estimator flags exactly the thumb as up and
each of the other four fingertips is curled (tip-y below its pip-y by more than
the scaled 0.01 margin), classify returns THUMB_UP_RIGHT for handedness "Right"
and THUMB_UP_LEFT for handedness "Left"; if any of the four curl checks fails,
the thumb-gesture rule does not fire. -/
theorem thumb_gesture_rule (lm : Landmarks) (hand : String)
    (hhand : hand = "Right" ∨ hand = "Left")
    (hfs : fingersUpList lm hand (scaleRefSq lm) = [1, 0, 0, 0, 0]) :
    ((∀ i : Fin 5, i ≠ 0 → CurledReal lm i) →
      classify (some lm) hand =
        if hand = "Right" then "THUMB_UP_RIGHT" else "THUMB_UP_LEFT")
    ∧ (¬ (∀ i : Fin 5, i ≠ 0 → CurledReal lm i) →
      classify (some lm) hand ≠ "THUMB_UP_RIGHT"
      ∧ classify (some lm) hand ≠ "THUMB_UP_LEFT"
      ∧ classify (some lm) hand ≠ "THUMB_UP") := by
  constructor
  · intro hcurl
    have hok : thumbsUpCurlsOk lm (scaleRefSq lm) = true :=
      (thumbsUpCurlsOk_iff lm).mpr hcurl
    have hthumb := thumbStep_eq_of lm hand (scaleRefSq lm)
      (fingersUpList lm hand (scaleRefSq lm)) (by rw [hfs]; rfl) (by rw [hfs]; rfl) hok
    show classifyWith lm hand (scaleRefSq lm)
      (fingersUpList lm hand (scaleRefSq lm)) = _
    unfold classifyWith
    rcases hhand with h | h <;> subst h
    · rw [hthumb]
      rw [if_pos rfl, palmStep_ne_unknown _ _ _ _ (by decide),
        pointStep_ne_unknown _ _ _ _ (by decide),
        peaceStep_ne_unknown _ _ _ _ (by decide)]
      rfl
    · rw [hthumb]
      rw [if_neg (by decide), if_pos rfl, palmStep_ne_unknown _ _ _ _ (by decide),
        pointStep_ne_unknown _ _ _ _ (by decide),
        peaceStep_ne_unknown _ _ _ _ (by decide)]
      rfl
  · intro hncurl
    have hok : thumbsUpCurlsOk lm (scaleRefSq lm) = false := by
      cases hcase : thumbsUpCurlsOk lm (scaleRefSq lm)
      · rfl
      · exact absurd ((thumbsUpCurlsOk_iff lm).mp hcase) hncurl
    have hthumb := thumbStep_no_curl lm hand (scaleRefSq lm)
      (fingersUpList lm hand (scaleRefSq lm)) hok
    have hm := classifyWith_mem lm hand (scaleRefSq lm)
      (fingersUpList lm hand (scaleRefSq lm))
    rw [hthumb] at hm
    have hc : classify (some lm) hand = classifyWith lm hand (scaleRefSq lm)
      (fingersUpList lm hand (scaleRefSq lm)) := rfl
    rw [hc]
    rcases hm with h | h | h | h <;> rw [h] <;>
      exact ⟨by decide, by decide, by decide⟩

/-- Witness for claim C4 at the concrete thumbs-up right hand. -/
theorem thumb_gesture_rule_witness :
    fingersUpList thumbsUpRightHand "Right" (scaleRefSq thumbsUpRightHand)
      = [1, 0, 0, 0, 0]
    ∧ (((∀ i : Fin 5, i ≠ 0 → CurledReal thumbsUpRightHand i) →
        classify (some thumbsUpRightHand) "Right" =
          if ("Right" : String) = "Right" then "THUMB_UP_RIGHT" else "THUMB_UP_LEFT")
      ∧ (¬ (∀ i : Fin 5, i ≠ 0 → CurledReal thumbsUpRightHand i) →
        classify (some thumbsUpRightHand) "Right" ≠ "THUMB_UP_RIGHT"
        ∧ classify (some thumbsUpRightHand) "Right" ≠ "THUMB_UP_LEFT"
        ∧ classify (some thumbsUpRightHand) "Right" ≠ "THUMB_UP")) :=
  ⟨by decide,
   thumb_gesture_rule thumbsUpRightHand "Right" (Or.inl rfl) (by decide)⟩

/-! ### Claim C10: the unqualified "THUMB_UP" arm is unreachable -/

/-- Claim C10: classify never returns the unqualified "THUMB_UP": the thumb is
only flagged up when the handedness string is exactly "Right" or "Left" (the
outward-x condition stays false otherwise), so classify's output is always one
of the seven other symbols. -/
theorem classify_never_plain_thumb_up :
    (∀ (lm : Landmarks) (hand : String) (s2 : ℚ),
      thumbUp lm hand s2 = true → hand = "Right" ∨ hand = "Left")
    ∧ (∀ (hand_landmarks : Option Landmarks) (hand : String),
      classify hand_landmarks hand ∈ ["NO_HAND", "UNKNOWN_GESTURE", "OPEN_PALM",
        "POINT_UP", "PEACE", "THUMB_UP_RIGHT", "THUMB_UP_LEFT"]) := by
  constructor
  · exact thumbUp_handedness
  · intro lm? hand
    cases lm? with
    | none =>
      show ("NO_HAND" : String) ∈ ["NO_HAND", "UNKNOWN_GESTURE", "OPEN_PALM",
        "POINT_UP", "PEACE", "THUMB_UP_RIGHT", "THUMB_UP_LEFT"]
      decide
    | some lm =>
      have hc : classify (some lm) hand = classifyWith lm hand (scaleRefSq lm)
        (fingersUpList lm hand (scaleRefSq lm)) := rfl
      rw [hc]
      rcases classifyWith_mem lm hand (scaleRefSq lm)
          (fingersUpList lm hand (scaleRefSq lm)) with h | h | h | h
      · rw [h]
        rcases thumbStep_mem_of_fingers lm hand (scaleRefSq lm) with h2 | h2 | h2 <;>
          rw [h2] <;> decide
      · rw [h]
        decide
      · rw [h]
        decide
      · rw [h]
        decide

/-- Witness for claim C10: the handedness consequence at a concrete thumb-up. -/
theorem classify_never_plain_thumb_up_witness :
    ("Right" : String) = "Right" ∨ ("Right" : String) = "Left" :=
  classify_never_plain_thumb_up.1 thumbsUpRightHand "Right"
    (scaleRefSq thumbsUpRightHand) (by decide)

/-! ### Claim C7: mirroring swaps the handedness-qualified thumb-up symbols -/

lemma distSq_mirror (lm : Landmarks) (i j : Fin 21) :
    distSq (mirrorX lm i) (mirrorX lm j) = distSq (lm i) (lm j) := by
  show ((1 - (lm i).x) - (1 - (lm j).x))^2 + ((lm i).y - (lm j).y)^2
      + ((lm i).z - (lm j).z)^2
    = ((lm i).x - (lm j).x)^2 + ((lm i).y - (lm j).y)^2 + ((lm i).z - (lm j).z)^2
  ring

lemma scaleRefSq_mirror (lm : Landmarks) :
    scaleRefSq (mirrorX lm) = scaleRefSq lm := by
  unfold scaleRefSq wristToMiddleMcpDistSq
  rw [distSq_mirror]

lemma thumbUp_mirror_LR (lm : Landmarks) (s2 : ℚ) :
    thumbUp (mirrorX lm) "Left" s2 = thumbUp lm "Right" s2 := by
  unfold thumbUp
  congr 1
  rw [if_neg (by decide), if_pos rfl, if_pos rfl]
  have hx : (mirrorX lm (tipId 0)).x - (mirrorX lm (mcpId 0)).x
      = (lm (mcpId 0)).x - (lm (tipId 0)).x := by
    show (1 - (lm (tipId 0)).x) - (1 - (lm (mcpId 0)).x) = _
    ring
  rw [hx]
  norm_num [THUMB_X_OUTWARDS_MCP_THRESHOLD_LEFT, THUMB_X_OUTWARDS_MCP_THRESHOLD_RIGHT]

lemma thumbUp_mirror_RL (lm : Landmarks) (s2 : ℚ) :
    thumbUp (mirrorX lm) "Right" s2 = thumbUp lm "Left" s2 := by
  unfold thumbUp
  congr 1
  rw [if_pos rfl, if_neg (by decide), if_pos rfl]
  have hx : (mirrorX lm (mcpId 0)).x - (mirrorX lm (tipId 0)).x
      = (lm (tipId 0)).x - (lm (mcpId 0)).x := by
    show (1 - (lm (mcpId 0)).x) - (1 - (lm (tipId 0)).x) = _
    ring
  rw [hx]
  norm_num [THUMB_X_OUTWARDS_MCP_THRESHOLD_LEFT, THUMB_X_OUTWARDS_MCP_THRESHOLD_RIGHT]

lemma fingersUpList_mirror_LR (lm : Landmarks) (s2 : ℚ) :
    fingersUpList (mirrorX lm) "Left" s2 = fingersUpList lm "Right" s2 := by
  unfold fingersUpList
  rw [thumbUp_mirror_LR]
  rfl

lemma fingersUpList_mirror_RL (lm : Landmarks) (s2 : ℚ) :
    fingersUpList (mirrorX lm) "Right" s2 = fingersUpList lm "Left" s2 := by
  unfold fingersUpList
  rw [thumbUp_mirror_RL]
  rfl

lemma thumbsUpCurlsOk_mirror (lm : Landmarks) (s2 : ℚ) :
    thumbsUpCurlsOk (mirrorX lm) s2 = thumbsUpCurlsOk lm s2 := rfl

/-- When a value other than the later branches' outputs is produced, classify
produces it iff the THUMBS UP branch produced it. -/
lemma classify_eq_iff_thumbStep_eq (lm : Landmarks) (hand : String) (v : String)
    (hv1 : v ≠ "UNKNOWN_GESTURE") (hv2 : v ≠ "OPEN_PALM")
    (hv3 : v ≠ "POINT_UP") (hv4 : v ≠ "PEACE") :
    classify (some lm) hand = v ↔
      thumbStep lm hand (scaleRefSq lm) (fingersUpList lm hand (scaleRefSq lm))
        = v := by
  constructor
  · intro h
    have h' : classifyWith lm hand (scaleRefSq lm)
        (fingersUpList lm hand (scaleRefSq lm)) = v := h
    rcases classifyWith_mem lm hand (scaleRefSq lm)
        (fingersUpList lm hand (scaleRefSq lm)) with hm | hm | hm | hm
    · exact hm.symm.trans h'
    · exact absurd (hm.symm.trans h').symm hv2
    · exact absurd (hm.symm.trans h').symm hv3
    · exact absurd (hm.symm.trans h').symm hv4
  · intro h
    show classifyWith lm hand (scaleRefSq lm)
      (fingersUpList lm hand (scaleRefSq lm)) = v
    unfold classifyWith
    rw [h, palmStep_ne_unknown _ _ _ _ hv1, pointStep_ne_unknown _ _ _ _ hv1,
      peaceStep_ne_unknown _ _ _ _ hv1]

/-- Claim C7: a landmark set classifying as a handedness-qualified thumb-up,
mirrored in x with the handedness label flipped, classifies as the opposite
handedness-qualified thumb-up. -/
theorem thumb_up_mirror_swap (lm : Landmarks) (hand : String) :
    (classify (some lm) hand = "THUMB_UP_RIGHT" →
      classify (some (mirrorX lm)) (flipHand hand) = "THUMB_UP_LEFT")
    ∧ (classify (some lm) hand = "THUMB_UP_LEFT" →
      classify (some (mirrorX lm)) (flipHand hand) = "THUMB_UP_RIGHT") := by
  constructor
  · intro h
    have hts := (classify_eq_iff_thumbStep_eq lm hand "THUMB_UP_RIGHT"
      (by decide) (by decide) (by decide) (by decide)).mp h
    have hhand : hand = "Right" := by
      unfold thumbStep at hts
      by_cases hg : (fingersUpList lm hand (scaleRefSq lm)).getD 0 0 = 1
          ∧ ((fingersUpList lm hand (scaleRefSq lm)).drop 1).sum = 0
          ∧ thumbsUpCurlsOk lm (scaleRefSq lm) = true
      · rw [if_pos hg] at hts
        by_cases hR : hand = "Right"
        · exact hR
        · rw [if_neg hR] at hts
          by_cases hL : hand = "Left"
          · rw [if_pos hL] at hts
            exact absurd hts (by decide)
          · rw [if_neg hL] at hts
            exact absurd hts (by decide)
      · rw [if_neg hg] at hts
        exact absurd hts (by decide)
    subst hhand
    rw [show flipHand "Right" = "Left" from rfl]
    apply (classify_eq_iff_thumbStep_eq (mirrorX lm) "Left" "THUMB_UP_LEFT"
      (by decide) (by decide) (by decide) (by decide)).mpr
    rw [scaleRefSq_mirror, fingersUpList_mirror_LR]
    unfold thumbStep at hts ⊢
    rw [thumbsUpCurlsOk_mirror]
    by_cases hg : (fingersUpList lm "Right" (scaleRefSq lm)).getD 0 0 = 1
        ∧ ((fingersUpList lm "Right" (scaleRefSq lm)).drop 1).sum = 0
        ∧ thumbsUpCurlsOk lm (scaleRefSq lm) = true
    · rw [if_pos hg]
      rfl
    · rw [if_neg hg] at hts
      exact absurd hts (by decide)
  · intro h
    have hts := (classify_eq_iff_thumbStep_eq lm hand "THUMB_UP_LEFT"
      (by decide) (by decide) (by decide) (by decide)).mp h
    have hhand : hand = "Left" := by
      unfold thumbStep at hts
      by_cases hg : (fingersUpList lm hand (scaleRefSq lm)).getD 0 0 = 1
          ∧ ((fingersUpList lm hand (scaleRefSq lm)).drop 1).sum = 0
          ∧ thumbsUpCurlsOk lm (scaleRefSq lm) = true
      · rw [if_pos hg] at hts
        by_cases hR : hand = "Right"
        · rw [if_pos hR] at hts
          exact absurd hts (by decide)
        · rw [if_neg hR] at hts
          by_cases hL : hand = "Left"
          · exact hL
          · rw [if_neg hL] at hts
            exact absurd hts (by decide)
      · rw [if_neg hg] at hts
        exact absurd hts (by decide)
    subst hhand
    rw [show flipHand "Left" = "Right" from rfl]
    apply (classify_eq_iff_thumbStep_eq (mirrorX lm) "Right" "THUMB_UP_RIGHT"
      (by decide) (by decide) (by decide) (by decide)).mpr
    rw [scaleRefSq_mirror, fingersUpList_mirror_RL]
    unfold thumbStep at hts ⊢
    rw [thumbsUpCurlsOk_mirror]
    by_cases hg : (fingersUpList lm "Left" (scaleRefSq lm)).getD 0 0 = 1
        ∧ ((fingersUpList lm "Left" (scaleRefSq lm)).drop 1).sum = 0
        ∧ thumbsUpCurlsOk lm (scaleRefSq lm) = true
    · rw [if_pos hg]
      rfl
    · rw [if_neg hg] at hts
      exact absurd hts (by decide)

/-- Witness for claim C7 at the concrete thumbs-up right hand. -/
theorem thumb_up_mirror_swap_witness :
    classify (some (mirrorX thumbsUpRightHand)) (flipHand "Right")
      = "THUMB_UP_LEFT" :=
  (thumb_up_mirror_swap thumbsUpRightHand "Right").1 (by decide)

/-! ### Claim C6: scale invariance -/

lemma gtScaled_scale (d c s2 k : ℚ) (hk : 0 < k) :
    gtScaled (k * d) c (k^2 * s2) = gtScaled d c s2 := by
  unfold gtScaled
  rw [decide_eq_decide]
  have hk2 : (0:ℚ) < k^2 := by positivity
  constructor
  · rintro ⟨h1, h2⟩
    constructor
    · nlinarith
    · have e1 : c^2 * (k^2 * s2) = k^2 * (c^2 * s2) := by ring
      have e2 : (k * d)^2 = k^2 * d^2 := by ring
      rw [e1, e2] at h2
      exact lt_of_mul_lt_mul_left h2 (le_of_lt hk2)
  · rintro ⟨h1, h2⟩
    constructor
    · exact mul_pos hk h1
    · have h3 := mul_lt_mul_of_pos_left h2 hk2
      calc c^2 * (k^2 * s2) = k^2 * (c^2 * s2) := by ring
      _ < k^2 * d^2 := h3
      _ = (k * d)^2 := by ring

lemma ltDistScaled_scale (dsq c s2 k : ℚ) (hk : 0 < k) :
    ltDistScaled (k^2 * dsq) c (k^2 * s2) = ltDistScaled dsq c s2 := by
  unfold ltDistScaled
  rw [decide_eq_decide]
  have hk2 : (0:ℚ) < k^2 := by positivity
  constructor
  · intro h
    have e : c^2 * (k^2 * s2) = k^2 * (c^2 * s2) := by ring
    rw [e] at h
    exact lt_of_mul_lt_mul_left h (le_of_lt hk2)
  · intro h
    have h3 := mul_lt_mul_of_pos_left h hk2
    calc k^2 * dsq < k^2 * (c^2 * s2) := h3
    _ = c^2 * (k^2 * s2) := by ring

lemma scaleXY_x_sub (k : ℚ) (lm : Landmarks) (i j : Fin 21) :
    (scaleXY k lm i).x - (scaleXY k lm j).x = k * ((lm i).x - (lm j).x) := by
  show ((lm 0).x + k * ((lm i).x - (lm 0).x))
      - ((lm 0).x + k * ((lm j).x - (lm 0).x)) = _
  ring

lemma scaleXY_y_sub (k : ℚ) (lm : Landmarks) (i j : Fin 21) :
    (scaleXY k lm i).y - (scaleXY k lm j).y = k * ((lm i).y - (lm j).y) := by
  show ((lm 0).y + k * ((lm i).y - (lm 0).y))
      - ((lm 0).y + k * ((lm j).y - (lm 0).y)) = _
  ring

lemma distSq_scaleXY (k : ℚ) (lm : Landmarks) (i j : Fin 21)
    (hz : (lm i).z = (lm j).z) :
    distSq (scaleXY k lm i) (scaleXY k lm j) = k^2 * distSq (lm i) (lm j) := by
  unfold distSq
  rw [scaleXY_x_sub, scaleXY_y_sub, show (scaleXY k lm i).z = (lm i).z from rfl,
    show (scaleXY k lm j).z = (lm j).z from rfl, hz]
  ring

lemma wristToMiddleMcpDistSq_scaleXY (k : ℚ) (lm : Landmarks)
    (hz : (lm 0).z = (lm 9).z) :
    wristToMiddleMcpDistSq (scaleXY k lm) = k^2 * wristToMiddleMcpDistSq lm := by
  unfold wristToMiddleMcpDistSq
  exact distSq_scaleXY k lm 0 9 hz

lemma scaleRefSq_scaleXY (k : ℚ) (lm : Landmarks) (hz : (lm 0).z = (lm 9).z)
    (hfloor1 : (1/100)^2 < wristToMiddleMcpDistSq lm)
    (hfloor2 : (1/100)^2 < k^2 * wristToMiddleMcpDistSq lm) :
    scaleRefSq (scaleXY k lm) = k^2 * scaleRefSq lm := by
  unfold scaleRefSq
  rw [wristToMiddleMcpDistSq_scaleXY k lm hz, if_pos hfloor2, if_pos hfloor1]

lemma fingerUp_scaleXY (k : ℚ) (lm : Landmarks) (s2 : ℚ) (i : Fin 5)
    (hk : 0 < k) :
    fingerUp (scaleXY k lm) (k^2 * s2) i = fingerUp lm s2 i := by
  unfold fingerUp
  rw [scaleXY_y_sub k lm (pipId i) (tipId i), scaleXY_y_sub k lm (mcpId i) (tipId i),
    scaleXY_y_sub k lm (mcpId i) (pipId i), gtScaled_scale _ _ _ _ hk,
    gtScaled_scale _ _ _ _ hk, gtScaled_scale _ _ _ _ hk]

lemma thumbUp_scaleXY (k : ℚ) (lm : Landmarks) (hand : String) (s2 : ℚ)
    (hk : 0 < k) :
    thumbUp (scaleXY k lm) hand (k^2 * s2) = thumbUp lm hand s2 := by
  unfold thumbUp
  rw [scaleXY_y_sub k lm (mcpId 0) (tipId 0), gtScaled_scale _ _ _ _ hk]
  congr 1
  by_cases hr : hand = "Right"
  · rw [if_pos hr, if_pos hr, scaleXY_x_sub k lm (mcpId 0) (tipId 0),
      gtScaled_scale _ _ _ _ hk]
  · rw [if_neg hr, if_neg hr]
    by_cases hl : hand = "Left"
    · rw [if_pos hl, if_pos hl, scaleXY_x_sub k lm (tipId 0) (mcpId 0),
        gtScaled_scale _ _ _ _ hk]
    · rw [if_neg hl, if_neg hl]

lemma fingersUpList_scaleXY (k : ℚ) (lm : Landmarks) (hand : String) (s2 : ℚ)
    (hk : 0 < k) :
    fingersUpList (scaleXY k lm) hand (k^2 * s2) = fingersUpList lm hand s2 := by
  unfold fingersUpList
  rw [thumbUp_scaleXY k lm hand s2 hk, fingerUp_scaleXY k lm s2 1 hk,
    fingerUp_scaleXY k lm s2 2 hk, fingerUp_scaleXY k lm s2 3 hk,
    fingerUp_scaleXY k lm s2 4 hk]

lemma thumbsUpCurl_scaleXY (k : ℚ) (lm : Landmarks) (s2 : ℚ) (i : Fin 5)
    (hk : 0 < k) :
    thumbsUpCurl (scaleXY k lm) (k^2 * s2) i = thumbsUpCurl lm s2 i := by
  unfold thumbsUpCurl
  rw [scaleXY_y_sub k lm (tipId i) (pipId i), gtScaled_scale _ _ _ _ hk]

lemma thumbsUpCurlsOk_scaleXY (k : ℚ) (lm : Landmarks) (s2 : ℚ) (hk : 0 < k) :
    thumbsUpCurlsOk (scaleXY k lm) (k^2 * s2) = thumbsUpCurlsOk lm s2 := by
  unfold thumbsUpCurlsOk
  rw [thumbsUpCurl_scaleXY k lm s2 1 hk, thumbsUpCurl_scaleXY k lm s2 2 hk,
    thumbsUpCurl_scaleXY k lm s2 3 hk, thumbsUpCurl_scaleXY k lm s2 4 hk]

lemma isSpread_scaleXY (k : ℚ) (lm : Landmarks) (s2 : ℚ) (hk : 0 < k) :
    isSpread (scaleXY k lm) (k^2 * s2) = isSpread lm s2 := by
  unfold isSpread
  rw [scaleXY_x_sub k lm (tipId 1) (tipId 2), scaleXY_x_sub k lm (tipId 2) (tipId 3),
    abs_mul, abs_mul, abs_of_pos hk, gtScaled_scale _ _ _ _ hk,
    gtScaled_scale _ _ _ _ hk]

lemma fingerPointDown_scaleXY (k : ℚ) (lm : Landmarks) (s2 : ℚ) (i : Fin 5)
    (hk : 0 < k) :
    fingerPointDown (scaleXY k lm) (k^2 * s2) i = fingerPointDown lm s2 i := by
  unfold fingerPointDown
  rw [scaleXY_y_sub k lm (tipId i) (pipId i), gtScaled_scale _ _ _ _ hk]

lemma pointThumbTucked_scaleXY (k : ℚ) (lm : Landmarks) (s2 : ℚ) (fs : List ℕ)
    (hk : 0 < k) (hz45 : (lm 4).z = (lm 5).z) :
    pointThumbTucked (scaleXY k lm) (k^2 * s2) fs = pointThumbTucked lm s2 fs := by
  unfold pointThumbTucked
  by_cases hg : fs.getD 0 0 = 1 ∧ fs.getD 1 0 = 1
  · rw [if_pos hg, if_pos hg, distSq_scaleXY k lm (tipId 0) (mcpId 1) hz45,
      ltDistScaled_scale _ _ _ _ hk]
  · rw [if_neg hg, if_neg hg]

lemma peaceThumbTucked_scaleXY (k : ℚ) (lm : Landmarks) (s2 : ℚ) (fs : List ℕ)
    (hk : 0 < k) (hz45 : (lm 4).z = (lm 5).z) :
    peaceThumbTucked (scaleXY k lm) (k^2 * s2) fs = peaceThumbTucked lm s2 fs := by
  unfold peaceThumbTucked
  by_cases hg : fs.getD 0 0 = 1 ∧ fs.getD 1 0 = 1 ∧ fs.getD 2 0 = 1
  · rw [if_pos hg, if_pos hg, distSq_scaleXY k lm (tipId 0) (mcpId 1) hz45,
      ltDistScaled_scale _ _ _ _ hk]
  · rw [if_neg hg, if_neg hg]

lemma classifyWith_scaleXY (k : ℚ) (lm : Landmarks) (hand : String) (s2 : ℚ)
    (fs : List ℕ) (hk : 0 < k) (hz45 : (lm 4).z = (lm 5).z) :
    classifyWith (scaleXY k lm) hand (k^2 * s2) fs = classifyWith lm hand s2 fs := by
  unfold classifyWith thumbStep palmStep pointStep peaceStep
  rw [thumbsUpCurlsOk_scaleXY k lm s2 hk, isSpread_scaleXY k lm s2 hk,
    fingerPointDown_scaleXY k lm s2 2 hk, fingerPointDown_scaleXY k lm s2 3 hk,
    fingerPointDown_scaleXY k lm s2 4 hk, pointThumbTucked_scaleXY k lm s2 fs hk hz45,
    peaceThumbTucked_scaleXY k lm s2 fs hk hz45]

/-- Claim C6 (counterexample): for the concrete planar thumbs-up right hand
(wrist-to-middle-MCP distance 0.02) and k = 1/2 ∈ [0.5, 2], scaling the (x, y)
coordinates about the wrist changes the classification: the scaled distance
0.01 falls to the floor branch of the scale reference, so the thresholds stop
scaling with the hand and THUMB_UP_RIGHT degrades to UNKNOWN_GESTURE. -/
theorem scale_invariance_counterexample :
    ((1:ℚ)/2 ≤ 1/2 ∧ (1/2 : ℚ) ≤ 2)
    ∧ classify (some thumbsUpRightHand) "Right" = "THUMB_UP_RIGHT"
    ∧ classify (some (scaleXY (1/2) thumbsUpRightHand)) "Right" = "UNKNOWN_GESTURE"
    ∧ classify (some (scaleXY (1/2) thumbsUpRightHand)) "Right"
      ≠ classify (some thumbsUpRightHand) "Right" := by
  refine ⟨⟨le_refl _, by norm_num⟩, by decide, by decide, by decide⟩

/-- Claim C6 (amended): scaling the landmark (x, y) coordinates uniformly about
the wrist by k ∈ [0.5, 2.0] and re-deriving the scale reference leaves the
classification unchanged, provided the z coordinates of the landmark pairs
whose 3D distances the classifier takes (wrist / middle MCP for the scale
reference, thumb tip / index MCP for the tuck checks) agree within each pair,
and both the original and the scaled wrist-to-middle-MCP distances stay above
the 0.01 floor cutoff. -/
theorem scale_invariance_amended (lm : Landmarks) (hand : String) (k : ℚ)
    (hk1 : 1/2 ≤ k) (_hk2 : k ≤ 2)
    (hz09 : (lm 0).z = (lm 9).z) (hz45 : (lm 4).z = (lm 5).z)
    (hfloor1 : (1/100)^2 < wristToMiddleMcpDistSq lm)
    (hfloor2 : (1/100)^2 < k^2 * wristToMiddleMcpDistSq lm) :
    classify (some (scaleXY k lm)) hand = classify (some lm) hand := by
  have hk : (0:ℚ) < k := lt_of_lt_of_le (by norm_num) hk1
  show classifyWith (scaleXY k lm) hand (scaleRefSq (scaleXY k lm))
      (fingersUpList (scaleXY k lm) hand (scaleRefSq (scaleXY k lm)))
    = classifyWith lm hand (scaleRefSq lm) (fingersUpList lm hand (scaleRefSq lm))
  rw [scaleRefSq_scaleXY k lm hz09 hfloor1 hfloor2,
    fingersUpList_scaleXY k lm hand (scaleRefSq lm) hk,
    classifyWith_scaleXY k lm hand (scaleRefSq lm)
      (fingersUpList lm hand (scaleRefSq lm)) hk hz45]

/-- Witness for the amended claim C6 at the concrete thumbs-up hand and k = 2. -/
theorem scale_invariance_amended_witness :
    classify (some (scaleXY 2 thumbsUpRightHand)) "Right"
      = classify (some thumbsUpRightHand) "Right" :=
  scale_invariance_amended thumbsUpRightHand "Right" 2 (by norm_num) (by norm_num)
    (by decide) (by decide) (by decide) (by decide)
